import Mathlib

/-!
Verification of the debug-statement instrumentation engine of the
focusmate-ios repository (src/wrap_prints.py, src/wrap_debug_prints.py).

Lines of a file are modelled as `List Char` (Python strings), a file's
line sequence as `List (List Char)`, exactly as `readlines` produces it:
every line keeps its trailing newline except possibly the last.
-/

/-- The module constant PRODUCTION_PATTERNS of wrap_prints.py. -/
def PRODUCTION_PATTERNS : List (List Char) :=
  ["CRITICAL".toList, "FATAL".toList, "❌ ERROR".toList, "App will not function".toList]

/-- Python's substring test `needle in hay`. -/
def hasSubstr (needle : List Char) : List Char → Bool
  | [] => needle.isEmpty
  | c :: cs => needle.isPrefixOf (c :: cs) || hasSubstr needle cs

/-- Python's whitespace set for str.strip / str.lstrip (ASCII part). -/
def pyIsSpace (c : Char) : Bool :=
  c == ' ' || c == '\t' || c == '\n' || c == '\x0d' || c == '\x0b' || c == '\x0c'

/-- Python str.lstrip() on a line. -/
def pyLStrip (l : List Char) : List Char := l.dropWhile pyIsSpace

/-- Python str.strip() on a line. -/
def pyStrip (l : List Char) : List Char :=
  ((l.dropWhile pyIsSpace).reverse.dropWhile pyIsSpace).reverse

/-- should_keep_in_production of wrap_prints.py: `pattern in line` for any
exemption pattern. -/
def should_keep_in_production (line : List Char) : Bool :=
  PRODUCTION_PATTERNS.any (fun p => hasSubstr p line)

/-- The diagnostic-call test of process_file line 50:
`'print(' in line and not line.strip().startswith('//')`. -/
def is_print_line (line : List Char) : Bool :=
  hasSubstr "print(".toList line && !("//".toList.isPrefixOf (pyStrip line))

/-- `'#if DEBUG' in line`. -/
def containsIfDebug (line : List Char) : Bool := hasSubstr "#if DEBUG".toList line

/-- `'#endif' in line`. -/
def containsEndif (line : List Char) : Bool := hasSubstr "#endif".toList line

/-- is_already_wrapped of wrap_prints.py: the outer loop is
`for i in range(max(0, index - 5), index)`, the inner
`for j in range(index + 1, min(len(lines), index + 5))`; Python's
`range(a, b)` is `List.range' a (b - a)` over natural numbers, and
`max(0, index - 5)` is truncated subtraction. -/
def is_already_wrapped (lines : List (List Char)) (index : Nat) : Bool :=
  (List.range' (index - 5) (index - (index - 5))).any (fun i =>
    containsIfDebug (lines.getD i []) &&
      (List.range' (index + 1) (min lines.length (index + 5) - (index + 1))).any
        (fun j => containsEndif (lines.getD j [])))

/-- indent = len(line) - len(line.lstrip()) of process_file line 58. -/
def line_indent (line : List Char) : Nat := line.length - (pyLStrip line).length

/-- The open-guard line process_file inserts: `f"{spaces}#if DEBUG\n"`. -/
def mk_if_debug (indent : Nat) : List Char :=
  List.replicate indent ' ' ++ "#if DEBUG\n".toList

/-- The close-guard line process_file inserts: `f"{spaces}#endif\n"`. -/
def mk_endif (indent : Nat) : List Char :=
  List.replicate indent ' ' ++ "#endif\n".toList

/-- One iteration of the while loop of process_file (lines 46-70): the lines
appended for index `i` of the original sequence. -/
def blockAt (lines : List (List Char)) (i : Nat) : List (List Char) :=
  if is_print_line (lines.getD i []) then
    if is_already_wrapped lines i || should_keep_in_production (lines.getD i []) then
      [lines.getD i []]
    else
      [mk_if_debug (line_indent (lines.getD i [])), lines.getD i [],
       mk_endif (line_indent (lines.getD i []))]
  else [lines.getD i []]

/-- The while loop of process_file run from index `i` for `n` more
iterations, appending `blockAt` for each index in turn. -/
def processGo (lines : List (List Char)) : Nat → Nat → List (List Char)
  | _, 0 => []
  | i, n + 1 => blockAt lines i ++ processGo lines (i + 1) n

/-- The per-file rewrite of process_file (classification plus guard
insertion), excluding file I/O: new_lines as the loop builds it. -/
def process_file (lines : List (List Char)) : List (List Char) :=
  processGo lines 0 lines.length

/-- The `modified` flag of process_file: set exactly when some index took the
wrapping branch, i.e. its block has three lines instead of one. -/
def file_modified (lines : List (List Char)) : Bool :=
  (List.range lines.length).any (fun i => (blockAt lines i).length == 3)

/-- Repeated application of the per-file rewrite. -/
def iter_transform : Nat → List (List Char) → List (List Char)
  | 0, X => X
  | n + 1, X => process_file (iter_transform n X)

/-- Python readlines on raw file content: split after every newline, the
final piece (if the content does not end in a newline) kept without one. -/
def pyReadLines : List Char → List (List Char)
  | [] => []
  | c :: cs =>
    if c == '\n' then ['\n'] :: pyReadLines cs
    else
      match pyReadLines cs with
      | [] => [[c]]
      | l :: ls => (c :: l) :: ls

/-- +1 on an open-guard marker, -1 on a close-guard marker, 0 otherwise. -/
def guard_delta (l : List Char) : Int :=
  if containsIfDebug l then 1 else if containsEndif l then -1 else 0

/-- Number of guard openings minus guard closings strictly before index `i`:
a diagnostic line at nesting depth two sits inside two guard pairs (when the
whole sequence is balanced). -/
def guard_depth_before (lines : List (List Char)) (i : Nat) : Int :=
  ((lines.take i).map guard_delta).sum

/-- A file whose second print sits five lines below the opening `#if DEBUG`:
the first run wraps the first print, which pushes the opening marker out of
the 5-line lookback window of the second print. -/
def exIdem : List (List Char) :=
  ["#if DEBUG\n".toList, "print(q)\n".toList, "x\n".toList, "y\n".toList,
   "z\n".toList, "print(p)\n".toList, "#endif\n".toList]

/-- A print inside a pre-existing guard pair whose close marker is five lines
below it, outside the 4-line lookahead window. -/
def exNest : List (List Char) :=
  ["#if DEBUG\n".toList, "print(p)\n".toList, "a\n".toList, "b\n".toList,
   "c\n".toList, "d\n".toList, "#endif\n".toList]

/-- A tab-indented print line. -/
def exTab : List (List Char) := ["\tprint(x)\n".toList]

/-- A single exempt diagnostic line. -/
def exCrit : List (List Char) := ["print(\"CRITICAL: a\")\n".toList]

/-- A diagnostic already tightly wrapped: guard markers directly above and
below. -/
def ex3 : List (List Char) :=
  ["#if DEBUG\n".toList, "    print(x)\n".toList, "#endif\n".toList]

/-- A space-indented print line. -/
def exSpaces : List (List Char) := ["  print(x)\n".toList]

/-- Two diagnostics inside one guard pair: an unrelated diagnostic intervenes
between the open marker and the second diagnostic. -/
def ex4 : List (List Char) :=
  ["#if DEBUG\n".toList, "print(a)\n".toList, "print(b)\n".toList,
   "#endif\n".toList]

/-- Modelled from the spec's words, for comparison with the code's
`is_already_wrapped` (claim C4, spec 4.2.3): a non-exempt diagnostic is
Wrapped if scanning backward up to 5 lines finds an open-guard marker and
scanning forward up to 5 lines finds a close-guard marker, with no
intervening unrelated diagnostic line between the found markers and this
line. -/
def spec_wrapped_condition (lines : List (List Char)) (i : Nat) : Bool :=
  ((List.range' (i - 5) (i - (i - 5))).any (fun a =>
    containsIfDebug (lines.getD a []) &&
      (List.range' (a + 1) (i - (a + 1))).all
        (fun m => !is_print_line (lines.getD m [])))) &&
  ((List.range' (i + 1) (min lines.length (i + 6) - (i + 1))).any (fun b =>
    containsEndif (lines.getD b []) &&
      (List.range' (i + 1) (b - (i + 1))).all
        (fun m => !is_print_line (lines.getD m []))))

/-- Outcome of one file of the batch run of main. -/
inductive FileOutcome
  | modified
  | unmodified
  | failed
deriving DecidableEq

/-- One candidate file of the batch run of main (wrap_prints.py lines
79-100), as explicit state: `path` is the path main would print (the
relative-path rendering is abstracted), and `io` is the result of this
file's whole read-transform-write attempt — `Except.error e` when reading or
writing raises an exception with message `e`, `Except.ok lines` when I/O
succeeds and the file holds `lines`. -/
structure SimFile where
  path : List Char
  io : Except (List Char) (List (List Char))

/-- The environment main runs in: whether `Path('focusmate/Focusmate')`
exists, and the Swift files `rglob` would enumerate under it. -/
structure ToolConfig where
  root_exists : Bool
  files : List SimFile

/-- Decimal rendering of a count, as an f-string interpolates it. -/
def natChars (n : Nat) : List Char := (Nat.repr n).toList

/-- `f"🔍 Processing {len(swift_files)} Swift files..."`. -/
def header_line (n : Nat) : List Char :=
  "🔍 Processing ".toList ++ natChars n ++ " Swift files...".toList

/-- `f"✅ {filepath.relative_to('focusmate/Focusmate')}"`. -/
def ok_line (p : List Char) : List Char := "✅ ".toList ++ p

/-- `f"❌ Error processing {filepath}: {e}"`. -/
def err_line (p e : List Char) : List Char :=
  "❌ Error processing ".toList ++ p ++ ": ".toList ++ e

/-- What becomes of one file inside the try/except of main's loop. -/
def file_outcome (f : SimFile) : FileOutcome :=
  match f.io with
  | Except.error _ => FileOutcome.failed
  | Except.ok ls =>
    if file_modified ls then FileOutcome.modified else FileOutcome.unmodified

/-- The console lines main's loop prints for one file: a ✅ line for a
modified file, a ❌ line for a failed one, nothing for an unmodified one. -/
def file_log (f : SimFile) : List (List Char) :=
  match f.io with
  | Except.error e => [err_line f.path e]
  | Except.ok ls => if file_modified ls then [ok_line f.path] else []

/-- The two prints main always ends with:
`f"\n✨ Modified {len(modified_files)} files"` and
`f"📊 Wrapped ~{len(modified_files) * 3} print statements in #if DEBUG blocks"`. -/
def summary_lines (k : Nat) : List (List Char) :=
  ["\n✨ Modified ".toList ++ natChars k ++ " files".toList,
   "📊 Wrapped ~".toList ++ natChars (k * 3) ++
     " print statements in #if DEBUG blocks".toList]

/-- `len(modified_files)` at the end of main's loop. -/
def modified_count (files : List SimFile) : Nat :=
  (files.filter (fun f => decide (file_outcome f = FileOutcome.modified))).length

/-- main of wrap_prints.py as explicit state passing: the console log it
prints and the outcome of every file it processes, in order. When the root
directory is missing it prints `❌ Focusmate directory not found` and
returns before enumerating or touching any file. -/
def main_run (cfg : ToolConfig) : List (List Char) × List FileOutcome :=
  if cfg.root_exists then
    (header_line cfg.files.length ::
       ((cfg.files.map file_log).flatten ++
         summary_lines (modified_count cfg.files)),
     cfg.files.map file_outcome)
  else (["❌ Focusmate directory not found".toList], [])

/-- A configuration whose root directory is absent but whose file set is
nonempty. -/
def exCfgMissing : ToolConfig :=
  ⟨false, [⟨"A.swift".toList, Except.ok ["print(x)\n".toList]⟩]⟩

/-- One file whose read or write raises. -/
def exCfgFail : ToolConfig :=
  ⟨true, [⟨"B.swift".toList, Except.error "boom".toList⟩]⟩

/-- One readable file the rewrite leaves unchanged. -/
def exCfgUnmod : ToolConfig :=
  ⟨true, [⟨"B.swift".toList, Except.ok ["x\n".toList]⟩]⟩

lemma mem_range'_iff (s n m : Nat) : m ∈ List.range' s n ↔ s ≤ m ∧ m < s + n := by
  rw [List.mem_range']
  constructor
  · rintro ⟨i, hi, rfl⟩; omega
  · rintro ⟨h1, h2⟩; exact ⟨m - s, by omega, by omega⟩

lemma blockAt_shape (lines : List (List Char)) (i : Nat) :
    blockAt lines i = [lines.getD i []] ∨
      blockAt lines i =
        [mk_if_debug (line_indent (lines.getD i [])), lines.getD i [],
         mk_endif (line_indent (lines.getD i []))] := by
  unfold blockAt
  split
  · split
    · exact Or.inl rfl
    · exact Or.inr rfl
  · exact Or.inl rfl

lemma processGo_add (lines : List (List Char)) (a : Nat) :
    ∀ (i b : Nat),
      processGo lines i (a + b) = processGo lines i a ++ processGo lines (i + a) b := by
  induction a with
  | zero => intro i b; simp [processGo]
  | succ a ih =>
    intro i b
    have h : a + 1 + b = (a + b) + 1 := by omega
    rw [h]
    show blockAt lines i ++ processGo lines (i + 1) (a + b) = _
    rw [ih (i + 1) b]
    show _ = (blockAt lines i ++ processGo lines (i + 1) a) ++ processGo lines (i + (a + 1)) b
    rw [List.append_assoc]
    have h2 : i + 1 + a = i + (a + 1) := by omega
    rw [h2]

lemma drop_sublist_processGo (lines : List (List Char)) :
    ∀ (n i : Nat), lines.length ≤ i + n →
      List.Sublist (lines.drop i) (processGo lines i n) := by
  intro n
  induction n with
  | zero =>
    intro i h
    have : lines.drop i = [] := List.drop_eq_nil_of_le (by omega)
    rw [this]
    exact List.nil_sublist _
  | succ n ih =>
    intro i h
    by_cases hi : i < lines.length
    · rw [List.drop_eq_getElem_cons hi]
      have hg : lines.getD i [] = lines[i] := List.getD_eq_getElem lines [] hi
      have ihs := ih (i + 1) (by omega)
      show List.Sublist _ (blockAt lines i ++ processGo lines (i + 1) n)
      rcases blockAt_shape lines i with hb | hb
      · rw [hb, hg]
        exact List.Sublist.cons₂ _ ihs
      · rw [hb, hg]
        exact List.Sublist.cons _ (List.Sublist.cons₂ _ (List.Sublist.cons _ ihs))
    · have : lines.drop i = [] := List.drop_eq_nil_of_le (by omega)
      rw [this]
      exact List.nil_sublist _

/-- The rewrite only inserts: the input line sequence is a subsequence of the
output, every input line unchanged and in order. -/
lemma self_sublist_process_file (lines : List (List Char)) :
    List.Sublist lines (process_file lines) := by
  have := drop_sublist_processGo lines lines.length 0 (by omega)
  simpa [process_file] using this

/-- Every line of the rewrite's output is an input line or an inserted guard
marker. -/
lemma mem_processGo (lines : List (List Char)) :
    ∀ (n i : Nat) (m : List Char), i + n ≤ lines.length →
      m ∈ processGo lines i n →
      m ∈ lines ∨ ∃ k, m = mk_if_debug k ∨ m = mk_endif k := by
  intro n
  induction n with
  | zero => intro i m _ hm; simp [processGo] at hm
  | succ n ih =>
    intro i m hlen hm
    have hmem : m ∈ blockAt lines i ∨ m ∈ processGo lines (i + 1) n := by
      simpa [processGo] using hm
    rcases hmem with hb | hrest
    · have hi : i < lines.length := by omega
      have hg : lines.getD i [] = lines[i] := List.getD_eq_getElem lines [] hi
      rcases blockAt_shape lines i with hs | hs <;> rw [hs] at hb
      · left
        rw [List.mem_singleton] at hb
        rw [hb, hg]
        exact List.getElem_mem hi
      · simp only [List.mem_cons, List.mem_singleton, List.not_mem_nil,
          or_false] at hb
        rcases hb with hb | hb | hb
        · right; exact ⟨line_indent (lines.getD i []), Or.inl hb⟩
        · left; rw [hb, hg]; exact List.getElem_mem hi
        · right; exact ⟨line_indent (lines.getD i []), Or.inr hb⟩
    · exact ih (i + 1) m (by omega) hrest

/-- Claim C1: applying the per-file rewrite twice differs from applying it
once on `exIdem`: the first run wraps `print(q)`, shifting the pre-existing
`#if DEBUG` out of the second print's lookback window, so the second run
wraps `print(p)` again. The idempotence contract
`transform (transform X) = transform X` fails at this input. -/
theorem transform_not_idempotent_on_exIdem :
    process_file (process_file exIdem) ≠ process_file exIdem := by decide

/-- Claim C7: on the single line `    print("hello")` (indentation 4, no
guards nearby, no exemption pattern), the rewrite outputs exactly three
lines: open guard at indentation 4, the original line unchanged, close guard
at indentation 4. -/
theorem single_print_scenario :
    process_file ["    print(\"hello\")\n".toList] =
      ["    #if DEBUG\n".toList, "    print(\"hello\")\n".toList,
       "    #endif\n".toList] := by decide

/-- Claim C3, counterexample: the inserted guard-marker lines are themselves
not diagnostic calls, so the ordered subsequence of non-diagnostic lines is
not identical before and after the transform: for the input consisting of the
single line `print(x)` it grows from empty to the two guard lines. -/
theorem nondiag_subsequence_not_preserved :
    List.filter (fun l => !is_print_line l) (process_file ["print(x)\n".toList]) ≠
      List.filter (fun l => !is_print_line l) ["print(x)\n".toList] := by decide

/-- Claim C5, counterexample: on `exNest` the rewrite inserts a new guard
pair around `print(p)` inside the pre-existing pair (whose close marker lies
outside the 4-line lookahead window), leaving the diagnostic at guard nesting
depth two in a balanced sequence: it is enclosed by two guard pairs after a
single run. -/
theorem nesting_after_one_run :
    process_file exNest =
      ["#if DEBUG\n".toList, "#if DEBUG\n".toList, "print(p)\n".toList,
       "#endif\n".toList, "a\n".toList, "b\n".toList, "c\n".toList,
       "d\n".toList, "#endif\n".toList] ∧
    is_print_line ((process_file exNest).getD 2 []) = true ∧
    guard_depth_before (process_file exNest) 2 = 2 ∧
    ((process_file exNest).map guard_delta).sum = 0 := by decide

/-- Claim C6, counterexample: for the tab-indented diagnostic `\tprint(x)`
the inserted guard lines are indented with one space character, not with the
diagnostic's tab: the guard markers do not share the diagnostic's indentation
character for character. -/
theorem guard_indent_differs_on_tab :
    process_file exTab =
      [" #if DEBUG\n".toList, "\tprint(x)\n".toList, " #endif\n".toList] ∧
    (" #if DEBUG\n".toList.takeWhile pyIsSpace ≠
      "\tprint(x)\n".toList.takeWhile pyIsSpace) := by decide

/-- Claim C2: at any iterate of the transform, a diagnostic line containing
an exemption pattern is emitted as exactly itself (the loop appends the
single unchanged line, inserting no guard pair around it), and it is still
present in the next iterate. -/
theorem exempt_line_never_wrapped : ∀ (X : List (List Char)) (n i : Nat),
    i < (iter_transform n X).length →
    is_print_line ((iter_transform n X).getD i []) = true →
    should_keep_in_production ((iter_transform n X).getD i []) = true →
    blockAt (iter_transform n X) i = [(iter_transform n X).getD i []] ∧
    (iter_transform n X).getD i [] ∈ iter_transform (n + 1) X := by
  intro X n i hlen hdiag hkeep
  refine ⟨?_, ?_⟩
  · unfold blockAt
    rw [hkeep, Bool.or_true]
    simp [hdiag]
  · have hmem : (iter_transform n X).getD i [] ∈ iter_transform n X := by
      rw [List.getD_eq_getElem _ _ hlen]
      exact List.getElem_mem hlen
    have hsub := self_sublist_process_file (iter_transform n X)
    have heq : iter_transform (n + 1) X = process_file (iter_transform n X) := rfl
    rw [heq]
    exact hsub.subset hmem

/-- Witness for C2 at the one-line file `print("CRITICAL: a")`. -/
theorem exempt_line_never_wrapped_witness :
    blockAt (iter_transform 0 exCrit) 0 = [(iter_transform 0 exCrit).getD 0 []] ∧
    (iter_transform 0 exCrit).getD 0 [] ∈ iter_transform 1 exCrit :=
  exempt_line_never_wrapped exCrit 0 0 (by decide) (by decide) (by decide)

/-- Claim C3 as amended: the transform never mutates an original line and
preserves the relative order of all original lines (the input is a
subsequence of the output), and every output line is an original line or an
inserted guard-marker line; the literal non-diagnostic-subsequence identity
fails only because the inserted guard lines are themselves non-diagnostic. -/
theorem transform_only_inserts_guard_lines : ∀ lines : List (List Char),
    List.Sublist lines (process_file lines) ∧
    ∀ m ∈ process_file lines,
      m ∈ lines ∨ ∃ k, m = mk_if_debug k ∨ m = mk_endif k := by
  intro lines
  refine ⟨self_sublist_process_file lines, ?_⟩
  intro m hm
  exact mem_processGo lines lines.length 0 m (by omega) hm

/-- Claim C4 as amended: a line is classified already-wrapped exactly when
some of the 5 preceding lines contains the open-guard marker and some of the
4 following lines contains the close-guard marker — with no
intervening-diagnostic restriction; a non-exempt diagnostic so classified is
left untouched, otherwise it receives a guard pair. -/
theorem wrapped_window_characterization : ∀ (lines : List (List Char)) (i : Nat),
    i < lines.length →
    (is_already_wrapped lines i = true ↔
      ((∃ a, a < i ∧ i ≤ a + 5 ∧ containsIfDebug (lines.getD a []) = true) ∧
       (∃ b, i < b ∧ b < i + 5 ∧ b < lines.length ∧
          containsEndif (lines.getD b []) = true))) ∧
    (is_print_line (lines.getD i []) = true →
      should_keep_in_production (lines.getD i []) = false →
      blockAt lines i =
        if is_already_wrapped lines i then [lines.getD i []]
        else [mk_if_debug (line_indent (lines.getD i [])), lines.getD i [],
              mk_endif (line_indent (lines.getD i []))]) := by
  intro lines i _
  constructor
  · unfold is_already_wrapped
    rw [List.any_eq_true]
    constructor
    · rintro ⟨a, ha, hcond⟩
      rw [mem_range'_iff] at ha
      rw [Bool.and_eq_true] at hcond
      obtain ⟨hdbg, hany⟩ := hcond
      rw [List.any_eq_true] at hany
      obtain ⟨b, hb, hend⟩ := hany
      rw [mem_range'_iff] at hb
      exact ⟨⟨a, by omega, by omega, hdbg⟩, ⟨b, by omega, by omega, by omega, hend⟩⟩
    · rintro ⟨⟨a, ha1, ha2, hdbg⟩, ⟨b, hb1, hb2, hb3, hend⟩⟩
      refine ⟨a, ?_, ?_⟩
      · rw [mem_range'_iff]; omega
      · rw [Bool.and_eq_true]
        refine ⟨hdbg, ?_⟩
        rw [List.any_eq_true]
        exact ⟨b, by rw [mem_range'_iff]; omega, hend⟩
  · intro hdiag hkeep
    unfold blockAt
    rw [hkeep, Bool.or_false, hdiag]
    simp

/-- Witness for C4 at the tightly wrapped triple, index 1. -/
theorem wrapped_window_characterization_witness :
    (is_already_wrapped ex3 1 = true ↔
      ((∃ a, a < 1 ∧ 1 ≤ a + 5 ∧ containsIfDebug (ex3.getD a []) = true) ∧
       (∃ b, 1 < b ∧ b < 1 + 5 ∧ b < ex3.length ∧
          containsEndif (ex3.getD b []) = true))) ∧
    (is_print_line (ex3.getD 1 []) = true →
      should_keep_in_production (ex3.getD 1 []) = false →
      blockAt ex3 1 =
        if is_already_wrapped ex3 1 then [ex3.getD 1 []]
        else [mk_if_debug (line_indent (ex3.getD 1 [])), ex3.getD 1 [],
              mk_endif (line_indent (ex3.getD 1 []))]) :=
  wrapped_window_characterization ex3 1 (by decide)

/-- Claim C4, counterexample: on `ex4` the code classifies `print(b)` (index
2) as already wrapped and leaves it untouched, although the unrelated
diagnostic `print(a)` intervenes between the found open-guard marker and it,
so the claim's classification rule (which demands no such intervening
diagnostic) calls it Unwrapped and predicts a guard pair. -/
theorem wrapped_ignores_intervening_diagnostic :
    is_already_wrapped ex4 2 = true ∧ spec_wrapped_condition ex4 2 = false ∧
    is_print_line (ex4.getD 2 []) = true ∧
    should_keep_in_production (ex4.getD 2 []) = false ∧
    blockAt ex4 2 = [ex4.getD 2 []] := by decide

/-- Claim C5 as amended: a line with an open-guard marker on the line
directly above and a close-guard marker on the line directly below never
receives an additional guard pair from the transform. -/
theorem adjacent_guards_block_rewrap : ∀ (lines : List (List Char)) (i : Nat),
    1 ≤ i → i + 1 < lines.length →
    containsIfDebug (lines.getD (i - 1) []) = true →
    containsEndif (lines.getD (i + 1) []) = true →
    blockAt lines i = [lines.getD i []] := by
  intro lines i h1 h2 hdbg hend
  have hw : is_already_wrapped lines i = true := by
    unfold is_already_wrapped
    rw [List.any_eq_true]
    refine ⟨i - 1, ?_, ?_⟩
    · rw [mem_range'_iff]; omega
    · rw [Bool.and_eq_true]
      refine ⟨hdbg, ?_⟩
      rw [List.any_eq_true]
      refine ⟨i + 1, ?_, hend⟩
      rw [mem_range'_iff]
      omega
  simp [blockAt, hw]

/-- Witness for C5 at the tightly wrapped triple, index 1. -/
theorem adjacent_guards_block_rewrap_witness :
    blockAt ex3 1 = [ex3.getD 1 []] :=
  adjacent_guards_block_rewrap ex3 1 (by decide) (by decide) (by decide) (by decide)

/-- Claim C6 as amended: an inserted guard pair is indented with space
characters, as many as the diagnostic has leading-whitespace characters; the
indentation therefore matches the diagnostic's character for character
exactly when the diagnostic's leading whitespace is all spaces. -/
theorem inserted_guard_indentation : ∀ (lines : List (List Char)) (i : Nat),
    is_print_line (lines.getD i []) = true →
    is_already_wrapped lines i = false →
    should_keep_in_production (lines.getD i []) = false →
    blockAt lines i =
      [List.replicate (line_indent (lines.getD i [])) ' ' ++ "#if DEBUG\n".toList,
       lines.getD i [],
       List.replicate (line_indent (lines.getD i [])) ' ' ++ "#endif\n".toList] ∧
    (((lines.getD i []).takeWhile pyIsSpace).all (fun c => c == ' ') = true →
      List.replicate (line_indent (lines.getD i [])) ' ' =
        (lines.getD i []).takeWhile pyIsSpace) := by
  intro lines i hdiag hw hkeep
  constructor
  · unfold blockAt
    rw [hw, hkeep, hdiag]
    simp [mk_if_debug, mk_endif]
  · intro hall
    have hlen : ((lines.getD i []).takeWhile pyIsSpace).length +
        ((lines.getD i []).dropWhile pyIsSpace).length =
          (lines.getD i []).length := by
      rw [← List.length_append, List.takeWhile_append_dropWhile]
    have hind : line_indent (lines.getD i []) =
        ((lines.getD i []).takeWhile pyIsSpace).length := by
      unfold line_indent pyLStrip
      omega
    rw [hind]
    symm
    rw [List.eq_replicate_iff]
    refine ⟨rfl, ?_⟩
    intro b hb
    exact eq_of_beq (List.all_eq_true.mp hall b hb)

/-- Claim C10: when the final line of a file is a non-exempt, unwrapped
diagnostic, the rewritten content (the concatenation `writelines` performs)
ends with the open-guard line, then the diagnostic emitted verbatim,
immediately followed by the indentation and `#endif` — the inserted guard
lines carry their own trailing newline, but nothing separates the diagnostic
from the close marker, so a diagnostic without a trailing newline shares its
physical line with the close marker. -/
theorem trailing_unwrapped_diag_shares_line : ∀ (ys : List (List Char)) (l : List Char),
    is_print_line l = true →
    should_keep_in_production l = false →
    is_already_wrapped (ys ++ [l]) ys.length = false →
    (process_file (ys ++ [l])).flatten =
      (processGo (ys ++ [l]) 0 ys.length).flatten ++
        (mk_if_debug (line_indent l) ++ (l ++ mk_endif (line_indent l))) := by
  intro ys l hdiag hkeep hw
  have hgd : (ys ++ [l]).getD ys.length [] = l := by
    rw [List.getD_eq_getElem?_getD, List.getElem?_append_right (le_refl _)]
    simp
  have hlen : (ys ++ [l]).length = ys.length + 1 := by simp
  have hsplit : process_file (ys ++ [l]) =
      processGo (ys ++ [l]) 0 ys.length ++ processGo (ys ++ [l]) ys.length 1 := by
    unfold process_file
    rw [hlen]
    have := processGo_add (ys ++ [l]) ys.length 0 1
    simpa using this
  have hblock : processGo (ys ++ [l]) ys.length 1 = blockAt (ys ++ [l]) ys.length := by
    simp [processGo]
  have hba : blockAt (ys ++ [l]) ys.length =
      [mk_if_debug (line_indent l), l, mk_endif (line_indent l)] := by
    unfold blockAt
    rw [hgd, hdiag, hw, hkeep]
    simp
  rw [hsplit, hblock, hba, List.flatten_append]
  simp

/-- Witness for C10 at the one-line file `    print("hi")` with no trailing
newline: the rewritten content has two physical lines, the second holding
the diagnostic text immediately followed by the indentation and `#endif`. -/
theorem trailing_unwrapped_diag_shares_line_witness :
    (process_file ["    print(\"hi\")".toList]).flatten =
      (processGo ["    print(\"hi\")".toList] 0 0).flatten ++
        (mk_if_debug (line_indent "    print(\"hi\")".toList) ++
          ("    print(\"hi\")".toList ++
            mk_endif (line_indent "    print(\"hi\")".toList))) ∧
    pyReadLines (process_file ["    print(\"hi\")".toList]).flatten =
      ["    #if DEBUG\n".toList, "    print(\"hi\")    #endif\n".toList] :=
  ⟨trailing_unwrapped_diag_shares_line [] "    print(\"hi\")".toList
      (by decide) (by decide) (by decide),
   by decide⟩

/-- Claim C8: when the configured root directory does not exist, the run
reports the configuration failure and ends at once: the log is the single
error line and the outcome list is empty — no file is enumerated, read or
written. -/
theorem missing_root_aborts : ∀ cfg : ToolConfig,
    cfg.root_exists = false →
    main_run cfg = (["❌ Focusmate directory not found".toList], []) := by
  intro cfg h
  simp [main_run, h]

/-- Witness for C8 at a configuration with an absent root and a nonempty
file set. -/
theorem missing_root_aborts_witness :
    main_run exCfgMissing = (["❌ Focusmate directory not found".toList], []) :=
  missing_root_aborts exCfgMissing rfl

/-- Claim C9 as amended: a per-file exception is caught and isolated — the
outcome list covers every file in order, the offending path is reported in a
❌ error line, and the two summary lines are always printed; but the final
summary reports only the modified count, so it does not itself distinguish
unmodified from failed files (the per-file lines do). -/
theorem per_file_errors_isolated : ∀ cfg : ToolConfig,
    cfg.root_exists = true →
    (main_run cfg).2 = cfg.files.map file_outcome ∧
    (main_run cfg).1 =
      header_line cfg.files.length ::
        ((cfg.files.map file_log).flatten ++
          summary_lines (modified_count cfg.files)) ∧
    ∀ f ∈ cfg.files, ∀ e, f.io = Except.error e →
      err_line f.path e ∈ (main_run cfg).1 := by
  intro cfg h
  have hm : main_run cfg =
      (header_line cfg.files.length ::
         ((cfg.files.map file_log).flatten ++
           summary_lines (modified_count cfg.files)),
       cfg.files.map file_outcome) := by
    simp [main_run, h]
  refine ⟨by rw [hm], by rw [hm], ?_⟩
  intro f hf e he
  rw [hm]
  apply List.mem_cons_of_mem
  apply List.mem_append_left
  rw [List.mem_flatten]
  refine ⟨file_log f, List.mem_map_of_mem _ hf, ?_⟩
  have hl : file_log f = [err_line f.path e] := by
    simp [file_log, he]
  rw [hl]
  exact List.mem_singleton_self _

/-- Witness for C9 at a configuration with one failing file. -/
theorem per_file_errors_isolated_witness :
    (main_run exCfgFail).2 = exCfgFail.files.map file_outcome ∧
    (main_run exCfgFail).1 =
      header_line exCfgFail.files.length ::
        ((exCfgFail.files.map file_log).flatten ++
          summary_lines (modified_count exCfgFail.files)) ∧
    ∀ f ∈ exCfgFail.files, ∀ e, f.io = Except.error e →
      err_line f.path e ∈ (main_run exCfgFail).1 :=
  per_file_errors_isolated exCfgFail rfl

/-- Claim C9, counterexample: one run with a single unmodified file and one
with a single failed file end with identical final summary lines (the last
two printed lines agree), while the file outcomes differ — the final summary
alone does not distinguish modified, unmodified and failed files. -/
theorem final_summary_not_distinguishing :
    summary_lines (modified_count exCfgUnmod.files) =
      summary_lines (modified_count exCfgFail.files) ∧
    (main_run exCfgUnmod).1.drop ((main_run exCfgUnmod).1.length - 2) =
      (main_run exCfgFail).1.drop ((main_run exCfgFail).1.length - 2) ∧
    (main_run exCfgUnmod).2 ≠ (main_run exCfgFail).2 := by decide

/-- Witness for C6 at the one-line file `  print(x)`. -/
theorem inserted_guard_indentation_witness :
    blockAt exSpaces 0 =
      [List.replicate (line_indent (exSpaces.getD 0 [])) ' ' ++ "#if DEBUG\n".toList,
       exSpaces.getD 0 [],
       List.replicate (line_indent (exSpaces.getD 0 [])) ' ' ++ "#endif\n".toList] ∧
    (((exSpaces.getD 0 []).takeWhile pyIsSpace).all (fun c => c == ' ') = true →
      List.replicate (line_indent (exSpaces.getD 0 [])) ' ' =
        (exSpaces.getD 0 []).takeWhile pyIsSpace) :=
  inserted_guard_indentation exSpaces 0 (by decide) (by decide) (by decide)
